import Mathlib

/-!
Verification development for the recursive sitemap PDF crawler
(src/sitemap_crawler.py).

The Python code is shallowly embedded as follows.

* Python str values are Lean String values.  The handful of str operations
  the crawler uses (lower, strip, startswith, endswith, split, replace,
  substring search) are re-implemented here as structurally recursive
  functions over the underlying character list, mirroring CPython semantics
  for the ASCII inputs the crawler handles.
* Python set objects are modelled as insertion-ordered duplicate-free
  List String values; add, update, difference and clear are modelled by
  pyInsert, pyUnion, pyDiff and the empty list.  All theorems below are
  stated in terms of membership and are independent of iteration order.
* The network is a parameter: a Web function maps each URL to the outcome of
  the GET performed by parse_sitemap (raw body plus the result of the
  external XML parse, or a request failure), and a DiscoveryEnv gives the
  robots.txt fetch outcome and the HEAD-probe outcomes used by
  discover_sitemaps.  xml.etree.ElementTree is an external collaborator, so
  a fetched body carries the outcome of XML parsing directly: none models an
  ET.ParseError, some doc gives the loc texts of the sitemap and url
  elements (a none entry models an element whose loc child is missing or
  has falsy text).
* The concurrent batch of crawl_recursive is modelled sequentially: the
  ThreadPoolExecutor block of the Python code waits for all workers of a
  batch before the next batch starts, so the batch is a fold of the worker
  over the drained pending list.  The CrawlState record carries the shared
  crawler fields plus two ghost fields used only to state properties:
  fetched, the trace of sitemap URLs actually fetched, and discovered, the
  set of all sitemap URLs ever seeded or found.
-/

/-! ## Python string primitives (structural, kernel-computable) -/

/-- ASCII lower-casing of one character, as Python str.lower does on ASCII. -/
def pyCharLower (c : Char) : Char :=
  if 'A' ≤ c ∧ c ≤ 'Z' then Char.ofNat (c.toNat + 32) else c

/-- Model of str.lower on the character list. -/
def pyLowerList (l : List Char) : List Char := l.map pyCharLower

/-- Model of str.lower. -/
def pyLower (s : String) : String := String.mk (pyLowerList s.data)

/-- Whitespace characters stripped by Python str.strip. -/
def pyIsSpace (c : Char) : Bool :=
  decide (c = ' ' ∨ c = '\t' ∨ c = '\n' ∨ c = '\r' ∨ c = '\x0b' ∨ c = '\x0c')

/-- Model of str.strip on the character list. -/
def pyTrimList (l : List Char) : List Char :=
  ((l.dropWhile pyIsSpace).reverse.dropWhile pyIsSpace).reverse

/-- Model of str.strip. -/
def pyTrim (s : String) : String := String.mk (pyTrimList s.data)

/-- Whether pat is a prefix of l (character lists). -/
def pyStarts : List Char → List Char → Bool
  | [], _ => true
  | _ :: _, [] => false
  | a :: as, b :: bs => if a = b then pyStarts as bs else false

/-- Model of str.startswith. -/
def pyStartsWith (s pre : String) : Bool := pyStarts pre.data s.data

/-- Model of str.endswith. -/
def pyEndsWith (s suf : String) : Bool := pyStarts suf.data.reverse s.data.reverse

/-- Whether pat occurs as a contiguous substring of the list. -/
def pyContainsSub (pat : List Char) : List Char → Bool
  | [] => pat.isEmpty
  | c :: rest => pyStarts pat (c :: rest) || pyContainsSub pat rest

/-- Model of the Python substring test (pat in s). -/
def pyContains (s pat : String) : Bool := pyContainsSub pat.data s.data

/-- Split a character list at the first occurrence of pat: the part before
and the part after, or none when pat does not occur. -/
def pySplitFirst (pat : List Char) : List Char → Option (List Char × List Char)
  | [] => if pat.isEmpty then some ([], []) else none
  | c :: rest =>
    if pyStarts pat (c :: rest) then some ([], (c :: rest).drop pat.length)
    else
      match pySplitFirst pat rest with
      | none => none
      | some p => some (c :: p.1, p.2)

/-- Split a character list on the newline character, as str.split of a
single separator does (an empty string yields one empty field). -/
def pySplitLinesAux : List Char → List (List Char)
  | [] => [[]]
  | c :: rest =>
    if c = '\n' then [] :: pySplitLinesAux rest
    else
      match pySplitLinesAux rest with
      | [] => [[c]]
      | l :: ls => (c :: l) :: ls

/-- Model of response.text.split of a newline. -/
def pySplitLines (s : String) : List String := (pySplitLinesAux s.data).map String.mk

/-- Model of the one replace call of the crawler, domain.replace of the
string www. by the empty string: every non-overlapping occurrence is
removed, scanning left to right. -/
def removeWWWList : List Char → List Char
  | 'w' :: 'w' :: 'w' :: '.' :: rest => removeWWWList rest
  | c :: rest => c :: removeWWWList rest
  | [] => []

/-- String wrapper for removeWWWList. -/
def pyRemoveWWW (s : String) : String := String.mk (removeWWWList s.data)

/-- Lexicographic comparison of character lists (ASCII order), used to model
the sorted builtin on the URL strings written to the report. -/
def charListLe : List Char → List Char → Bool
  | [], _ => true
  | _ :: _, [] => false
  | a :: as, b :: bs => if a = b then charListLe as bs else decide (a < b)

/-- Lexicographic order on strings, for the sorted report output. -/
def pyStrLe (a b : String) : Bool := charListLe a.data b.data

/-- Insert into a sorted list, auxiliary of the insertion sort below. -/
def insertSorted (u : String) : List String → List String
  | [] => [u]
  | v :: rest => if pyStrLe u v then u :: v :: rest else v :: insertSorted u rest

/-- Model of sorted on a list of URL strings. -/
def pySorted (l : List String) : List String := l.foldr insertSorted []

/-! ## Python set primitives (insertion-ordered duplicate-free lists) -/

/-- Model of set.add. -/
def pyInsert (l : List String) (u : String) : List String :=
  if u ∈ l then l else l ++ [u]

/-- Model of set.update. -/
def pyUnion (l m : List String) : List String := m.foldl pyInsert l

/-- Model of set difference. -/
def pyDiff (l m : List String) : List String := l.filter (fun u => decide (u ∉ m))

/-- Model of building a set from a list (the list-of-set deduplication in
discover_sitemaps). -/
def pySetOf (l : List String) : List String := pyUnion [] l

/-! ## Model of urllib.parse for the absolute http(s) URLs the crawler sees -/

/-- Model of urlparse(url).netloc for an absolute URL: the text between the
scheme separator and the first slash, question mark or hash; the empty
string when the URL has no scheme separator. -/
def netloc (url : String) : String :=
  match pySplitFirst ("://".data) url.data with
  | none => ""
  | some p => String.mk (p.2.takeWhile (fun c => decide (c ≠ '/' ∧ c ≠ '?' ∧ c ≠ '#')))

/-- Model of urlparse(url).path for an absolute URL: from the first slash
after the authority up to the query or fragment. -/
def urlPath (url : String) : String :=
  match pySplitFirst ("://".data) url.data with
  | none => String.mk (url.data.takeWhile (fun c => decide (c ≠ '?' ∧ c ≠ '#')))
  | some p =>
    String.mk
      (((p.2.dropWhile (fun c => decide (c ≠ '/' ∧ c ≠ '?' ∧ c ≠ '#'))).takeWhile
        (fun c => decide (c ≠ '?' ∧ c ≠ '#'))))

/-- Model of urljoin(base, loc) for the root-relative conventional sitemap
locations: scheme and authority of the base followed by the location. -/
def urljoinRoot (base loc : String) : String :=
  match pySplitFirst ("://".data) base.data with
  | none => loc
  | some p => String.mk p.1 ++ "://" ++ netloc base ++ loc

/-! ## The crawler's pure helpers -/

/-- SitemapCrawler.is_pdf_url: search of the compiled pattern over the WHOLE
url string.  The first pattern is a case-insensitive search of a dot, pdf
then end of string (the regex end anchor also matches just before one final
newline); the second a case-insensitive search of a dot, pdf then a literal
question mark anywhere in the url. -/
def pdfPattern1 (url : String) : Bool :=
  pyEndsWith (pyLower url) (".pdf") || pyEndsWith (pyLower url) (".pdf\n")

/-- Second compiled pattern of SitemapCrawler, a dot then pdf then a
question mark, searched anywhere in the url, case-insensitively. -/
def pdfPattern2 (url : String) : Bool := pyContains (pyLower url) (".pdf?")

/-- The pdf_patterns list built in SitemapCrawler.__init__. -/
def pdf_patterns : List (String → Bool) := [pdfPattern1, pdfPattern2]

/-- SitemapCrawler.is_pdf_url: any pattern matches the url. -/
def is_pdf_url (url : String) : Bool := pdf_patterns.any (fun p => p url)

/-- SitemapCrawler._is_same_domain: the host of the url equals the stored
domain, or www. followed by the domain, or the domain with every occurrence
of www. removed (str.replace removes all occurrences, not only a leading
one). -/
def is_same_domain (domain url : String) : Bool :=
  (netloc url == domain) || (netloc url == "www." ++ domain)
    || (netloc url == pyRemoveWWW domain)

/-! ## Fetch and parse model -/

/-- Loc texts of the sitemap and url elements of a successfully XML-parsed
body, as reported by the external XML parser; a none entry stands for an
element whose loc child is absent or has falsy text and is skipped. -/
structure XmlDoc where
  sitemapLocs : List (Option String)
  urlLocs : List (Option String)
deriving DecidableEq

/-- A fetched response body: its decoded text and the outcome of the
external XML parse of its content (none models an ET.ParseError). -/
structure Body where
  text : String
  xml : Option XmlDoc
deriving DecidableEq

/-- Outcome of the GET inside parse_sitemap: a body, or a
requests.RequestException (timeout, connection failure, or the non-success
status raised by raise_for_status) carrying its message. -/
inductive FetchOutcome
  | success (body : Body)
  | failure (msg : String)
deriving DecidableEq

/-- The network, as a function from URL to fetch outcome. -/
def Web : Type := String → FetchOutcome

/-- The result dict of parse_sitemap, with keys urls, sitemaps and pdfs. -/
structure ParseOut where
  urls : List String
  sitemaps : List String
  pdfs : List String
deriving DecidableEq

/-- The empty parse_sitemap result. -/
def emptyParse : ParseOut := { urls := [], sitemaps := [], pdfs := [] }

/-- The error message appended by parse_sitemap on a request failure. -/
def reqError (url msg : String) : String :=
  "Request error for " ++ url ++ ": " ++ msg

/-- Extract and strip the present loc texts of a list of elements. -/
def xmlLocs (locs : List (Option String)) : List String :=
  (locs.filterMap id).map pyTrim

/-- Child sitemap URLs collected from a sitemap index, filtered to the
target domain. -/
def xmlSitemaps (domain : String) (doc : XmlDoc) : List String :=
  pySetOf ((xmlLocs doc.sitemapLocs).filter (fun u => is_same_domain domain u))

/-- Page URLs collected from a URL-set sitemap, filtered to the target
domain. -/
def xmlUrls (domain : String) (doc : XmlDoc) : List String :=
  pySetOf ((xmlLocs doc.urlLocs).filter (fun u => is_same_domain domain u))

/-- The page URLs of a URL-set sitemap classified as PDFs. -/
def xmlPdfs (domain : String) (doc : XmlDoc) : List String :=
  (xmlUrls domain doc).filter (fun u => is_pdf_url u)

/-- The plain-text fallback of parse_sitemap: each stripped line of the body
that starts with http and passes the domain filter. -/
def fallbackUrls (domain text : String) : List String :=
  pySetOf (((pySplitLines text).map pyTrim).filter
    (fun l => pyStartsWith l ("http") && is_same_domain domain l))

/-- SitemapCrawler.parse_sitemap.  On a request failure the error message is
appended to the shared error list and the empty result returned.  When the
XML parse of the body fails (ET.ParseError) the function logs and returns
the empty result immediately: nothing is appended to the error list and the
plain-text fallback is NOT attempted.  When the XML parse succeeds, sitemap
and url elements are collected; only when there are neither does the
plain-text fallback run over the body text. -/
def parse_sitemap (web : Web) (domain url : String) (errors : List String) :
    ParseOut × List String :=
  match web url with
  | FetchOutcome.failure msg => (emptyParse, errors ++ [reqError url msg])
  | FetchOutcome.success body =>
    match body.xml with
    | none => (emptyParse, errors)
    | some doc =>
      if doc.sitemapLocs.isEmpty && doc.urlLocs.isEmpty then
        ({ urls := fallbackUrls domain body.text
           sitemaps := []
           pdfs := (fallbackUrls domain body.text).filter (fun u => is_pdf_url u) },
         errors)
      else
        ({ urls := xmlUrls domain doc
           sitemaps := xmlSitemaps domain doc
           pdfs := xmlPdfs domain doc },
         errors)

/-- Child sitemap set found at a URL, used to state closure of a finite
universe of sitemap URLs (the result dict of parse_sitemap does not depend
on the error-list argument). -/
def webSitemaps (web : Web) (domain url : String) : List String :=
  (parse_sitemap web domain url []).1.sitemaps

/-! ## Discovery bootstrap model -/

/-- Network environment of the discovery phase: the robots.txt text when its
GET returned status 200 (none covers a non-200 status or an exception, both
of which contribute nothing), and for each probed URL whether the HEAD
request returned status 200 (false covers any failure, which is swallowed). -/
structure DiscoveryEnv where
  robots : Option String
  head200 : String → Bool

/-- One line of robots.txt: when the stripped line lower-cases to something
starting with sitemap followed by a colon, the text after the first colon,
stripped, is a candidate sitemap URL. -/
def sitemapLineUrl (line : String) : Option String :=
  if pyStartsWith (pyLower line) ("sitemap:") then
    match pySplitFirst (":".data) line.data with
    | none => none
    | some p => some (pyTrim (String.mk p.2))
  else none

/-- SitemapCrawler.get_robots_txt_sitemaps: candidate URLs of the Sitemap
lines of robots.txt; no domain filter is applied here. -/
def get_robots_txt_sitemaps (env : DiscoveryEnv) : List String :=
  match env.robots with
  | none => []
  | some text => ((pySplitLines text).map pyTrim).filterMap sitemapLineUrl

/-- The fixed conventional sitemap locations probed by discover_sitemaps. -/
def sitemap_locations : List String :=
  ["/sitemap.xml", "/sitemap_index.xml", "/sitemaps.xml", "/sitemap/",
   "/wp-sitemap.xml", "/sitemap-index.xml"]

/-- SitemapCrawler.discover_sitemaps: robots.txt candidates plus the
conventional locations whose HEAD probe returned 200, deduplicated. -/
def discover_sitemaps (env : DiscoveryEnv) (base : String) : List String :=
  pySetOf (get_robots_txt_sitemaps env
    ++ (sitemap_locations.map (fun loc => urljoinRoot base loc)).filter env.head200)

/-! ## Shared crawler state and the batch loop -/

/-- The shared mutable state of SitemapCrawler: processed_sitemaps,
pending_sitemaps, pdf_urls and errors, plus two ghost fields used only in
statements: fetched, the trace of URLs actually fetched, and discovered,
every sitemap URL ever seeded or found. -/
structure CrawlState where
  processed : List String
  pending : List String
  pdfs : List String
  errors : List String
  fetched : List String
  discovered : List String
deriving DecidableEq

/-- SitemapCrawler.crawl_sitemap_worker: skip a URL already processed;
otherwise fetch and parse it, mark it processed, accumulate its PDFs, and
enqueue the child sitemaps that are in neither processed nor pending. -/
def crawl_sitemap_worker (web : Web) (domain url : String) (s : CrawlState) :
    CrawlState :=
  if url ∈ s.processed then s
  else
    let pr := parse_sitemap web domain url s.errors
    let processed2 := pyInsert s.processed url
    { processed := processed2
      pdfs := pyUnion s.pdfs pr.1.pdfs
      pending := pyUnion s.pending (pyDiff (pyDiff pr.1.sitemaps processed2) s.pending)
      errors := pr.2
      fetched := s.fetched ++ [url]
      discovered := pyUnion s.discovered pr.1.sitemaps }

/-- One batch: every drained URL handed to a worker (the thread pool of the
Python code joins all workers of a batch before the next starts, so the
batch is a fold of the worker). -/
def processBatch (web : Web) (domain : String) (batch : List String)
    (s : CrawlState) : CrawlState :=
  batch.foldl (fun t u => crawl_sitemap_worker web domain u t) s

/-- The while loop of crawl_recursive, with explicit fuel: while pending is
non-empty, drain pending minus processed into a batch, clear pending, stop
when the batch is empty, else run the batch and loop. -/
def crawlLoop (web : Web) (domain : String) : Nat → CrawlState → CrawlState
  | 0, s => s
  | fuel + 1, s =>
    if s.pending.isEmpty then s
    else
      let batch := pyDiff s.pending s.processed
      let s1 : CrawlState := { s with pending := [] }
      if batch.isEmpty then s1
      else crawlLoop web domain fuel (processBatch web domain batch s1)

/-- The state at the start of the loop: empty sets, pending seeded with the
discovered sitemaps (the ghost discovered field starts equal to the seeds). -/
def initState (seeds : List String) : CrawlState :=
  { processed := [], pending := seeds, pdfs := [], errors := [],
    fetched := [], discovered := seeds }

/-- The SitemapResult dataclass. -/
structure SitemapResult where
  pdf_urls : List String
  sitemap_urls : List String
  processed_sitemaps : List String
  errors : List String
deriving DecidableEq

/-- SitemapCrawler.crawl_recursive: discover seeds; when none are found
return the empty result with the single error, else seed pending and run
the batch loop, and freeze the final state into the result.  The final
crawl state is returned alongside the result for use in statements. -/
def crawl_recursive (web : Web) (env : DiscoveryEnv) (base : String)
    (fuel : Nat) : SitemapResult × CrawlState :=
  let domain := netloc base
  let seeds := discover_sitemaps env base
  if seeds.isEmpty then
    ({ pdf_urls := [], sitemap_urls := [], processed_sitemaps := [],
       errors := ["No sitemaps found"] }, initState [])
  else
    let final := crawlLoop web domain fuel (initState seeds)
    ({ pdf_urls := final.pdfs, sitemap_urls := final.processed,
       processed_sitemaps := final.processed, errors := final.errors }, final)

/-! ## Report writing model (save_results and the tail of main) -/

/-- The lines save_results writes: three header comment lines, a blank line,
then the PDF URLs sorted ascending. -/
def reportLines (base : String) (r : SitemapResult) : List String :=
  ["# PDF URLs found on " ++ base,
   "# Total PDFs: " ++ toString r.pdf_urls.length,
   "# Sitemaps processed: " ++ toString r.processed_sitemaps.length,
   ""] ++ pySorted r.pdf_urls

/-- Failure mode of the file system during save_results: no failure, open
failing with a message, or a write failing after k lines reached the file. -/
inductive WriteFault
  | ok
  | openFail (msg : String)
  | failAfter (k : Nat) (msg : String)

/-- Observable outcome of save_results: the file content afterwards (none
when no file was created), the log messages emitted, and the exception
escaping the call, if any. -/
structure SaveOutcome where
  file : Option (List String)
  logged : List String
  raised : Option String

/-- SitemapCrawler.save_results: the whole body sits in a try block whose
except clause catches every exception and only logs it, so no fault
propagates to the caller; on an open failure no file exists, on a write
failure the file holds the lines written so far. -/
def save_results (fault : WriteFault) (base out : String) (r : SitemapResult) :
    SaveOutcome :=
  match fault with
  | WriteFault.ok =>
    { file := some (reportLines base r),
      logged := ["Results saved to " ++ out], raised := none }
  | WriteFault.openFail m =>
    { file := none, logged := ["Error saving results: " ++ m], raised := none }
  | WriteFault.failAfter k m =>
    { file := some ((reportLines base r).take k),
      logged := ["Error saving results: " ++ m], raised := none }

/-- The tail of main: call save_results, then print the saved-to line.  An
exception escaping save_results would abort main before the print, which
the match on the raised field makes explicit. -/
def main_save_and_report (fault : WriteFault) (base out : String)
    (r : SitemapResult) : SaveOutcome × List String :=
  let s := save_results fault base out r
  match s.raised with
  | some _ => (s, [])
  | none => (s, ["PDF URLs saved to: " ++ out])

/-! ## Definitions following the spec wording, for comparison with the code -/

/-- Spec wording of claim C3: PDF classification applied to the PATH
component of the URL (ends in .pdf, with or without a trailing query). -/
def pathPdfSpec (url : String) : Bool :=
  pyEndsWith (pyLower (urlPath url)) (".pdf")
    || pyContains (pyLower (urlPath url)) (".pdf?")

/-- Spec wording of claim C4: the domain with a SINGLE LEADING www.
stripped. -/
def stripLeadingWww (d : String) : String :=
  if pyStartsWith d ("www.") then String.mk (d.data.drop 4) else d

/-- Spec wording of claim C4: host equals the domain, www. plus the domain,
or the domain with a single leading www. stripped. -/
def sameDomainSpec (domain url : String) : Bool :=
  (netloc url == domain) || (netloc url == "www." ++ domain)
    || (netloc url == stripLeadingWww domain)

/-- The domain filter over a set of URLs, for the idempotence property. -/
def domainFilter (domain : String) (l : List String) : List String :=
  l.filter (fun u => is_same_domain domain u)

/-! ## Invariants of the crawl state -/

/-- Run invariant of the crawl state, established at the seeded initial
state and preserved by the batch loop: the fetch trace has no duplicates,
every fetched URL is processed and was discovered, pending URLs were
discovered, the discovered set has no duplicates, every fetched URL whose
GET failed has its message in the error list, and every accumulated PDF URL
passes the domain filter. -/
def Inv0 (web : Web) (domain : String) (s : CrawlState) : Prop :=
  s.fetched.Nodup
  ∧ (∀ u ∈ s.fetched, u ∈ s.processed)
  ∧ (∀ u ∈ s.fetched, u ∈ s.discovered)
  ∧ s.pending ⊆ s.discovered
  ∧ s.discovered.Nodup
  ∧ (∀ u m, web u = FetchOutcome.failure m → u ∈ s.fetched → reqError u m ∈ s.errors)
  ∧ (∀ u ∈ s.pdfs, is_same_domain domain u = true)

/-- Boundedness of the frontier by a finite universe U of sitemap URLs,
used for the termination argument. -/
def InvU (U : List String) (s : CrawlState) : Prop :=
  s.pending ⊆ U ∧ s.processed ⊆ U

/-! ## Concrete webs and environments used by the claim-level theorems -/

/-- C2 counterexample body: not parseable as XML, but its text is a line
that starts with http and passes the domain filter. -/
def bodyC2 : Body := { text := "http://u.e/a.pdf", xml := none }

/-- C2 counterexample web. -/
def webC2 : Web := fun u =>
  if u = "http://u.e/s.txt" then FetchOutcome.success bodyC2
  else FetchOutcome.failure "404"

/-- C2 witness body: parses as XML but has neither sitemap nor url
elements, so the plain-text fallback runs. -/
def bodyW2 : Body :=
  { text := "http://u.e/a.pdf\nother",
    xml := some { sitemapLocs := [], urlLocs := [] } }

/-- C2 witness web. -/
def webW2 : Web := fun u =>
  if u = "http://u.e/s.txt" then FetchOutcome.success bodyW2
  else FetchOutcome.failure "404"

/-- C5 counterexample environment: robots.txt advertises an off-domain
sitemap; no conventional path probe succeeds. -/
def envC5 : DiscoveryEnv :=
  { robots := some "Sitemap: http://cdn.x/s.xml", head200 := fun _ => false }

/-- C5 counterexample web: the off-domain sitemap fetch succeeds with an
empty document. -/
def webC5 : Web := fun u =>
  if u = "http://cdn.x/s.xml" then
    FetchOutcome.success { text := "", xml := some { sitemapLocs := [], urlLocs := [] } }
  else FetchOutcome.failure "404"

/-- C5 witness environment: one conventional sitemap location exists. -/
def envW5 : DiscoveryEnv :=
  { robots := none, head200 := fun u => u == "http://u.e/sitemap.xml" }

/-- C5 witness web: the sitemap is a URL set holding one same-domain PDF. -/
def webW5 : Web := fun u =>
  if u = "http://u.e/sitemap.xml" then
    FetchOutcome.success
      { text := "", xml := some { sitemapLocs := [], urlLocs := [some "http://u.e/d.pdf"] } }
  else FetchOutcome.failure "404"

/-- C6 counterexample environment. -/
def envC6 : DiscoveryEnv :=
  { robots := none, head200 := fun u => u == "http://u.e/sitemap.xml" }

/-- C6 counterexample body: fetched fine but malformed as XML. -/
def bodyC6 : Body := { text := "not xml", xml := none }

/-- C6 counterexample web. -/
def webC6 : Web := fun u =>
  if u = "http://u.e/sitemap.xml" then FetchOutcome.success bodyC6
  else FetchOutcome.failure "404"

/-- C6 witness environment. -/
def envW6 : DiscoveryEnv :=
  { robots := none, head200 := fun u => u == "http://u.e/sitemap.xml" }

/-- C6 witness web: every fetch times out. -/
def webW6 : Web := fun _ => FetchOutcome.failure "timeout"

/-- C7 witness environment: no robots.txt sitemap line, every probe fails. -/
def envW7 : DiscoveryEnv := { robots := none, head200 := fun _ => false }

/-- C7 witness web. -/
def webW7 : Web := fun _ => FetchOutcome.failure "down"

/-- C8 counterexample environment. -/
def envC8 : DiscoveryEnv :=
  { robots := none, head200 := fun u => u == "http://u.e/sitemap.xml" }

/-- C8 counterexample web: the single sitemap is an empty document. -/
def webC8 : Web := fun u =>
  if u = "http://u.e/sitemap.xml" then
    FetchOutcome.success { text := "", xml := some { sitemapLocs := [], urlLocs := [] } }
  else FetchOutcome.failure "404"

/-- C9 witness environment. -/
def env9 : DiscoveryEnv :=
  { robots := none, head200 := fun u => u == "http://u.e/sitemap.xml" }

/-- C9 witness web: a two-sitemap cycle, the child also lists one PDF. -/
def web9 : Web := fun u =>
  if u = "http://u.e/sitemap.xml" then
    FetchOutcome.success
      { text := "", xml := some { sitemapLocs := [some "http://u.e/a.xml"], urlLocs := [] } }
  else if u = "http://u.e/a.xml" then
    FetchOutcome.success
      { text := "",
        xml := some { sitemapLocs := [some "http://u.e/sitemap.xml"],
                      urlLocs := [some "http://u.e/d.pdf"] } }
  else FetchOutcome.failure "404"

/-- C9 witness universe: the two sitemap URLs of web9. -/
def U9 : List String := ["http://u.e/sitemap.xml", "http://u.e/a.xml"]

/-! ## Lemmas about the set primitives -/

theorem mem_pyInsert {l : List String} {u a : String} :
    a ∈ pyInsert l u ↔ a ∈ l ∨ a = u := by
  unfold pyInsert
  split
  · rename_i h
    constructor
    · exact fun ha => Or.inl ha
    · rintro (ha | rfl)
      · exact ha
      · exact h
  · simp [List.mem_append]

theorem mem_pyUnion {m l : List String} {a : String} :
    a ∈ pyUnion l m ↔ a ∈ l ∨ a ∈ m := by
  induction m generalizing l with
  | nil => simp [pyUnion]
  | cons u m ih =>
    show a ∈ pyUnion (pyInsert l u) m ↔ _
    rw [ih, mem_pyInsert]
    simp [List.mem_cons]
    tauto

theorem mem_pyDiff {l m : List String} {a : String} :
    a ∈ pyDiff l m ↔ a ∈ l ∧ a ∉ m := by
  simp [pyDiff, List.mem_filter]

theorem mem_pySetOf {l : List String} {a : String} :
    a ∈ pySetOf l ↔ a ∈ l := by
  simp [pySetOf, mem_pyUnion]

theorem pyUnion_subset_left {l m : List String} : l ⊆ pyUnion l m :=
  fun _ ha => mem_pyUnion.mpr (Or.inl ha)

theorem pyInsert_subset_left {l : List String} {u : String} : l ⊆ pyInsert l u :=
  fun _ ha => mem_pyInsert.mpr (Or.inl ha)

theorem mem_pyInsert_self {l : List String} (u : String) : u ∈ pyInsert l u :=
  mem_pyInsert.mpr (Or.inr rfl)

theorem pyDiff_subset {l m : List String} : pyDiff l m ⊆ l :=
  fun _ ha => (mem_pyDiff.mp ha).1

theorem nodup_pyInsert {l : List String} (u : String) (h : l.Nodup) :
    (pyInsert l u).Nodup := by
  unfold pyInsert
  split
  · exact h
  · rename_i hu
    rw [List.nodup_append]
    refine ⟨h, List.nodup_singleton u, ?_⟩
    intro a ha hau
    rw [List.mem_singleton] at hau
    exact hu (hau ▸ ha)

theorem nodup_pyUnion {m l : List String} (h : l.Nodup) : (pyUnion l m).Nodup := by
  induction m generalizing l with
  | nil => exact h
  | cons u m ih => exact ih (nodup_pyInsert u h)

theorem nodup_pySetOf (l : List String) : (pySetOf l).Nodup :=
  nodup_pyUnion List.nodup_nil

/-! ## Lemmas about parse_sitemap -/

theorem parse_out_failure {web : Web} {url m : String} (domain : String)
    (errors : List String) (h : web url = FetchOutcome.failure m) :
    (parse_sitemap web domain url errors).1 = emptyParse := by
  unfold parse_sitemap
  rw [h]

theorem parse_out_xml_fail {web : Web} {url : String} {body : Body} (domain : String)
    (errors : List String) (h : web url = FetchOutcome.success body)
    (hx : body.xml = none) :
    (parse_sitemap web domain url errors).1 = emptyParse := by
  unfold parse_sitemap
  rw [h]
  dsimp only
  rw [hx]

theorem parse_out_fallback {web : Web} {url : String} {body : Body} {doc : XmlDoc}
    (domain : String) (errors : List String) (h : web url = FetchOutcome.success body)
    (hx : body.xml = some doc)
    (he : (doc.sitemapLocs.isEmpty && doc.urlLocs.isEmpty) = true) :
    (parse_sitemap web domain url errors).1 =
      { urls := fallbackUrls domain body.text
        sitemaps := []
        pdfs := (fallbackUrls domain body.text).filter (fun u => is_pdf_url u) } := by
  unfold parse_sitemap
  rw [h]
  dsimp only
  rw [hx]
  dsimp only
  rw [if_pos he]

theorem parse_out_xml {web : Web} {url : String} {body : Body} {doc : XmlDoc}
    (domain : String) (errors : List String) (h : web url = FetchOutcome.success body)
    (hx : body.xml = some doc)
    (he : ¬ (doc.sitemapLocs.isEmpty && doc.urlLocs.isEmpty) = true) :
    (parse_sitemap web domain url errors).1 =
      { urls := xmlUrls domain doc
        sitemaps := xmlSitemaps domain doc
        pdfs := xmlPdfs domain doc } := by
  unfold parse_sitemap
  rw [h]
  dsimp only
  rw [hx]
  dsimp only
  rw [if_neg he]

theorem parse_errs_failure {web : Web} {url m : String} (domain : String)
    (errors : List String) (h : web url = FetchOutcome.failure m) :
    (parse_sitemap web domain url errors).2 = errors ++ [reqError url m] := by
  unfold parse_sitemap
  rw [h]

theorem parse_errs_success {web : Web} {url : String} {body : Body} (domain : String)
    (errors : List String) (h : web url = FetchOutcome.success body) :
    (parse_sitemap web domain url errors).2 = errors := by
  unfold parse_sitemap
  rw [h]
  dsimp only
  rcases hx : body.xml with _ | doc
  · rfl
  · dsimp only
    split <;> rfl

theorem parse_errs_extend (web : Web) (domain url : String) (errors : List String) :
    ∃ t, (parse_sitemap web domain url errors).2 = errors ++ t := by
  cases hw : web url with
  | success body =>
    exact ⟨[], by rw [parse_errs_success domain errors hw, List.append_nil]⟩
  | failure m => exact ⟨[reqError url m], parse_errs_failure domain errors hw⟩

theorem parse_out_const (web : Web) (domain url : String) (errors : List String) :
    (parse_sitemap web domain url errors).1 = (parse_sitemap web domain url []).1 := by
  cases hw : web url with
  | failure m => rw [parse_out_failure domain errors hw, parse_out_failure domain [] hw]
  | success body =>
    rcases hx : body.xml with _ | doc
    · rw [parse_out_xml_fail domain errors hw hx, parse_out_xml_fail domain [] hw hx]
    · by_cases he : (doc.sitemapLocs.isEmpty && doc.urlLocs.isEmpty) = true
      · rw [parse_out_fallback domain errors hw hx he,
          parse_out_fallback domain [] hw hx he]
      · rw [parse_out_xml domain errors hw hx he, parse_out_xml domain [] hw hx he]

theorem fallbackUrls_filtered {domain text v : String}
    (hv : v ∈ fallbackUrls domain text) : is_same_domain domain v = true := by
  unfold fallbackUrls at hv
  rw [mem_pySetOf, List.mem_filter] at hv
  have h2 := hv.2
  simp only [Bool.and_eq_true] at h2
  exact h2.2

theorem xmlUrls_filtered {domain v : String} {doc : XmlDoc}
    (hv : v ∈ xmlUrls domain doc) : is_same_domain domain v = true := by
  unfold xmlUrls at hv
  rw [mem_pySetOf, List.mem_filter] at hv
  exact hv.2

theorem parse_pdfs_filtered (web : Web) (domain url : String) (errors : List String) :
    ∀ v ∈ (parse_sitemap web domain url errors).1.pdfs,
      is_same_domain domain v = true := by
  intro v hv
  cases hw : web url with
  | failure m =>
    rw [parse_out_failure domain errors hw] at hv
    simp [emptyParse] at hv
  | success body =>
    rcases hx : body.xml with _ | doc
    · rw [parse_out_xml_fail domain errors hw hx] at hv
      simp [emptyParse] at hv
    · by_cases he : (doc.sitemapLocs.isEmpty && doc.urlLocs.isEmpty) = true
      · rw [parse_out_fallback domain errors hw hx he] at hv
        exact fallbackUrls_filtered (List.mem_filter.mp hv).1
      · rw [parse_out_xml domain errors hw hx he] at hv
        exact xmlUrls_filtered
          (List.mem_filter.mp
            (show v ∈ (xmlUrls domain doc).filter (fun u => is_pdf_url u) from hv)).1

/-! ## Small list helpers -/

theorem isEmpty_eq_nil {l : List String} (h : l.isEmpty = true) : l = [] := by
  cases l with
  | nil => rfl
  | cons a l => simp [List.isEmpty] at h

theorem nodup_length_le {l m : List String} (hn : l.Nodup) (hsub : l ⊆ m) :
    l.length ≤ m.length := (hn.subperm hsub).length_le

theorem pyDiff_length_lt {U p q : List String} (hsub : p ⊆ q) {b : String}
    (hbU : b ∈ U) (hbp : b ∉ p) (hbq : b ∈ q) :
    (pyDiff U q).length < (pyDiff U p).length := by
  have hsl : List.Sublist (pyDiff U q) (pyDiff U p) := by
    apply List.monotone_filter_right
    intro a ha
    simp only [decide_eq_true_eq] at ha ⊢
    exact fun hp => ha (hsub hp)
  rcases Nat.lt_or_ge (pyDiff U q).length (pyDiff U p).length with hlt | hge
  · exact hlt
  · exfalso
    have heq : pyDiff U q = pyDiff U p :=
      hsl.eq_of_length (Nat.le_antisymm hsl.length_le hge)
    have hbin : b ∈ pyDiff U p := mem_pyDiff.mpr ⟨hbU, hbp⟩
    rw [← heq] at hbin
    exact (mem_pyDiff.mp hbin).2 hbq

/-! ## Lemmas about the worker -/

theorem worker_skip {web : Web} {domain url : String} {s : CrawlState}
    (h : url ∈ s.processed) : crawl_sitemap_worker web domain url s = s := by
  unfold crawl_sitemap_worker
  rw [if_pos h]

theorem worker_run {web : Web} {domain url : String} {s : CrawlState}
    (h : url ∉ s.processed) :
    crawl_sitemap_worker web domain url s =
      { processed := pyInsert s.processed url
        pdfs := pyUnion s.pdfs (parse_sitemap web domain url s.errors).1.pdfs
        pending := pyUnion s.pending
          (pyDiff (pyDiff (parse_sitemap web domain url s.errors).1.sitemaps
            (pyInsert s.processed url)) s.pending)
        errors := (parse_sitemap web domain url s.errors).2
        fetched := s.fetched ++ [url]
        discovered := pyUnion s.discovered
          (parse_sitemap web domain url s.errors).1.sitemaps } := by
  unfold crawl_sitemap_worker
  rw [if_neg h]

theorem worker_processed_mono (web : Web) (domain url : String) (s : CrawlState) :
    s.processed ⊆ (crawl_sitemap_worker web domain url s).processed := by
  by_cases hp : url ∈ s.processed
  · rw [worker_skip hp]
    exact List.Subset.refl _
  · rw [worker_run hp]
    exact pyInsert_subset_left

theorem worker_pdfs_mono (web : Web) (domain url : String) (s : CrawlState) :
    s.pdfs ⊆ (crawl_sitemap_worker web domain url s).pdfs := by
  by_cases hp : url ∈ s.processed
  · rw [worker_skip hp]
    exact List.Subset.refl _
  · rw [worker_run hp]
    exact pyUnion_subset_left

theorem worker_discovered_mono (web : Web) (domain url : String) (s : CrawlState) :
    s.discovered ⊆ (crawl_sitemap_worker web domain url s).discovered := by
  by_cases hp : url ∈ s.processed
  · rw [worker_skip hp]
    exact List.Subset.refl _
  · rw [worker_run hp]
    exact pyUnion_subset_left

theorem worker_mem_processed (web : Web) (domain url : String) (s : CrawlState) :
    url ∈ (crawl_sitemap_worker web domain url s).processed := by
  by_cases hp : url ∈ s.processed
  · rw [worker_skip hp]
    exact hp
  · rw [worker_run hp]
    exact mem_pyInsert_self url

theorem worker_inv0 {web : Web} {domain url : String} {s : CrawlState}
    (hd : url ∈ s.discovered) (h : Inv0 web domain s) :
    Inv0 web domain (crawl_sitemap_worker web domain url s) := by
  obtain ⟨h1, h2, h3, h4, h5, h6, h7⟩ := h
  by_cases hp : url ∈ s.processed
  · rw [worker_skip hp]
    exact ⟨h1, h2, h3, h4, h5, h6, h7⟩
  · rw [worker_run hp]
    refine ⟨?_, ?_, ?_, ?_, ?_, ?_, ?_⟩
    · rw [List.nodup_append]
      refine ⟨h1, List.nodup_singleton url, ?_⟩
      intro a ha hau
      rw [List.mem_singleton] at hau
      exact hp (hau ▸ h2 a ha)
    · intro u hu
      rcases List.mem_append.mp hu with hu | hu
      · exact pyInsert_subset_left (h2 u hu)
      · rw [List.mem_singleton] at hu
        subst hu
        exact mem_pyInsert_self u
    · intro u hu
      rcases List.mem_append.mp hu with hu | hu
      · exact pyUnion_subset_left (h3 u hu)
      · rw [List.mem_singleton] at hu
        subst hu
        exact pyUnion_subset_left hd
    · intro u hu
      rcases mem_pyUnion.mp hu with hu | hu
      · exact pyUnion_subset_left (h4 hu)
      · exact mem_pyUnion.mpr (Or.inr (pyDiff_subset (pyDiff_subset hu)))
    · exact nodup_pyUnion h5
    · intro u m hm hu
      rcases List.mem_append.mp hu with hu | hu
      · obtain ⟨t, ht⟩ := parse_errs_extend web domain url s.errors
        rw [ht]
        exact List.mem_append.mpr (Or.inl (h6 u m hm hu))
      · rw [List.mem_singleton] at hu
        subst hu
        rw [parse_errs_failure domain s.errors hm]
        exact List.mem_append.mpr (Or.inr (List.mem_singleton.mpr rfl))
    · intro u hu
      rcases mem_pyUnion.mp hu with hu | hu
      · exact h7 u hu
      · exact parse_pdfs_filtered web domain url s.errors u hu

theorem worker_invU {web : Web} {domain url : String} {U : List String}
    {s : CrawlState}
    (hc : ∀ v ∈ U, ∀ w ∈ webSitemaps web domain v, w ∈ U)
    (hu : url ∈ U) (h : InvU U s) :
    InvU U (crawl_sitemap_worker web domain url s) := by
  obtain ⟨h1, h2⟩ := h
  by_cases hp : url ∈ s.processed
  · rw [worker_skip hp]
    exact ⟨h1, h2⟩
  · rw [worker_run hp]
    constructor
    · intro v hv
      rcases mem_pyUnion.mp hv with hv | hv
      · exact h1 hv
      · have hsm : v ∈ (parse_sitemap web domain url s.errors).1.sitemaps :=
          pyDiff_subset (pyDiff_subset hv)
        rw [parse_out_const] at hsm
        exact hc url hu v hsm
    · intro v hv
      rcases mem_pyInsert.mp hv with hv | rfl
      · exact h2 hv
      · exact hu

/-! ## Lemmas about batches -/

theorem processBatch_cons (web : Web) (domain u : String) (l : List String)
    (s : CrawlState) :
    processBatch web domain (u :: l) s =
      processBatch web domain l (crawl_sitemap_worker web domain u s) := rfl

theorem processBatch_processed_mono (web : Web) (domain : String) (l : List String) :
    ∀ s : CrawlState, s.processed ⊆ (processBatch web domain l s).processed := by
  induction l with
  | nil => intro s; exact List.Subset.refl _
  | cons u l ih =>
    intro s
    rw [processBatch_cons]
    exact (worker_processed_mono web domain u s).trans (ih _)

theorem processBatch_pdfs_mono (web : Web) (domain : String) (l : List String) :
    ∀ s : CrawlState, s.pdfs ⊆ (processBatch web domain l s).pdfs := by
  induction l with
  | nil => intro s; exact List.Subset.refl _
  | cons u l ih =>
    intro s
    rw [processBatch_cons]
    exact (worker_pdfs_mono web domain u s).trans (ih _)

theorem processBatch_mem_processed (web : Web) (domain : String) (l : List String) :
    ∀ s : CrawlState, ∀ u ∈ l, u ∈ (processBatch web domain l s).processed := by
  induction l with
  | nil => intro s u hu; exact absurd hu (List.not_mem_nil u)
  | cons v l ih =>
    intro s u hu
    rw [processBatch_cons]
    rcases List.mem_cons.mp hu with rfl | hu
    · exact processBatch_processed_mono web domain l _
        (worker_mem_processed web domain u s)
    · exact ih _ u hu

theorem processBatch_inv0 (web : Web) (domain : String) (l : List String) :
    ∀ s : CrawlState, (∀ u ∈ l, u ∈ s.discovered) → Inv0 web domain s →
      Inv0 web domain (processBatch web domain l s) := by
  induction l with
  | nil => intro s _ h; exact h
  | cons u l ih =>
    intro s hd h
    rw [processBatch_cons]
    refine ih _ ?_ (worker_inv0 (hd u (List.mem_cons_self u l)) h)
    intro v hv
    exact worker_discovered_mono web domain u s (hd v (List.mem_cons_of_mem u hv))

theorem processBatch_invU (web : Web) (domain : String) (U : List String)
    (hc : ∀ v ∈ U, ∀ w ∈ webSitemaps web domain v, w ∈ U) (l : List String) :
    ∀ s : CrawlState, (∀ u ∈ l, u ∈ U) → InvU U s →
      InvU U (processBatch web domain l s) := by
  induction l with
  | nil => intro s _ h; exact h
  | cons u l ih =>
    intro s hl h
    rw [processBatch_cons]
    exact ih _ (fun v hv => hl v (List.mem_cons_of_mem u hv))
      (worker_invU hc (hl u (List.mem_cons_self u l)) h)

/-! ## Lemmas about the batch loop -/

theorem crawlLoop_zero (web : Web) (domain : String) (s : CrawlState) :
    crawlLoop web domain 0 s = s := rfl

theorem crawlLoop_succ (web : Web) (domain : String) (fuel : Nat) (s : CrawlState) :
    crawlLoop web domain (fuel + 1) s =
      if s.pending.isEmpty then s
      else
        let batch := pyDiff s.pending s.processed
        let s1 : CrawlState := { s with pending := [] }
        if batch.isEmpty then s1
        else crawlLoop web domain fuel (processBatch web domain batch s1) := rfl

theorem inv0_clear_pending {web : Web} {domain : String} {s : CrawlState}
    (h : Inv0 web domain s) :
    Inv0 web domain { s with pending := ([] : List String) } := by
  obtain ⟨h1, h2, h3, _, h5, h6, h7⟩ := h
  exact ⟨h1, h2, h3, fun u hu => absurd hu (List.not_mem_nil u), h5, h6, h7⟩

theorem crawlLoop_inv0 (web : Web) (domain : String) :
    ∀ fuel : Nat, ∀ s : CrawlState, Inv0 web domain s →
      Inv0 web domain (crawlLoop web domain fuel s) := by
  intro fuel
  induction fuel with
  | zero => intro s h; exact h
  | succ fuel ih =>
    intro s h
    rw [crawlLoop_succ]
    by_cases hp : s.pending.isEmpty
    · rw [if_pos hp]
      exact h
    · rw [if_neg hp]
      dsimp only
      by_cases hb : (pyDiff s.pending s.processed).isEmpty
      · rw [if_pos hb]
        exact inv0_clear_pending h
      · rw [if_neg hb]
        apply ih
        apply processBatch_inv0
        · intro u hu
          exact h.2.2.2.1 (pyDiff_subset hu)
        · exact inv0_clear_pending h

theorem crawlLoop_processed_mono (web : Web) (domain : String) :
    ∀ fuel : Nat, ∀ s : CrawlState,
      s.processed ⊆ (crawlLoop web domain fuel s).processed := by
  intro fuel
  induction fuel with
  | zero => intro s; exact List.Subset.refl _
  | succ fuel ih =>
    intro s
    rw [crawlLoop_succ]
    by_cases hp : s.pending.isEmpty
    · rw [if_pos hp]
      exact List.Subset.refl _
    · rw [if_neg hp]
      dsimp only
      by_cases hb : (pyDiff s.pending s.processed).isEmpty
      · rw [if_pos hb]
        exact List.Subset.refl _
      · rw [if_neg hb]
        exact (processBatch_processed_mono web domain _
          { s with pending := [] }).trans (ih _)

theorem crawlLoop_pdfs_mono (web : Web) (domain : String) :
    ∀ fuel : Nat, ∀ s : CrawlState,
      s.pdfs ⊆ (crawlLoop web domain fuel s).pdfs := by
  intro fuel
  induction fuel with
  | zero => intro s; exact List.Subset.refl _
  | succ fuel ih =>
    intro s
    rw [crawlLoop_succ]
    by_cases hp : s.pending.isEmpty
    · rw [if_pos hp]
      exact List.Subset.refl _
    · rw [if_neg hp]
      dsimp only
      by_cases hb : (pyDiff s.pending s.processed).isEmpty
      · rw [if_pos hb]
        exact List.Subset.refl _
      · rw [if_neg hb]
        exact (processBatch_pdfs_mono web domain _
          { s with pending := [] }).trans (ih _)

theorem crawlLoop_pending_empty (web : Web) (domain : String) (U : List String)
    (hc : ∀ v ∈ U, ∀ w ∈ webSitemaps web domain v, w ∈ U) :
    ∀ fuel : Nat, ∀ s : CrawlState, InvU U s →
      (pyDiff U s.processed).length < fuel →
      (crawlLoop web domain fuel s).pending = [] := by
  intro fuel
  induction fuel with
  | zero => intro s _ hf; exact absurd hf (Nat.not_lt_zero _)
  | succ fuel ih =>
    intro s hU hf
    rw [crawlLoop_succ]
    by_cases hp : s.pending.isEmpty
    · rw [if_pos hp]
      exact isEmpty_eq_nil hp
    · rw [if_neg hp]
      dsimp only
      by_cases hb : (pyDiff s.pending s.processed).isEmpty
      · rw [if_pos hb]
      · rw [if_neg hb]
        have hbne : pyDiff s.pending s.processed ≠ [] := by
          intro hnil
          rw [hnil] at hb
          exact hb rfl
        obtain ⟨b, L, hbL⟩ := List.exists_cons_of_ne_nil hbne
        have hbmem : b ∈ pyDiff s.pending s.processed := by
          rw [hbL]
          exact List.mem_cons_self b L
        have hbp := mem_pyDiff.mp hbmem
        have hbU : b ∈ U := hU.1 hbp.1
        have hU1 : InvU U ({ s with pending := [] } : CrawlState) :=
          ⟨fun x hx => absurd hx (List.not_mem_nil x), hU.2⟩
        have hbatchU : ∀ u ∈ pyDiff s.pending s.processed, u ∈ U :=
          fun u hu => hU.1 (pyDiff_subset hu)
        have hU2 : InvU U (processBatch web domain (pyDiff s.pending s.processed)
            { s with pending := [] }) :=
          processBatch_invU web domain U hc _ _ hbatchU hU1
        apply ih _ hU2
        have hmono : s.processed ⊆ (processBatch web domain
            (pyDiff s.pending s.processed) { s with pending := [] }).processed :=
          processBatch_processed_mono web domain (pyDiff s.pending s.processed)
            { s with pending := [] }
        have hbin : b ∈ (processBatch web domain (pyDiff s.pending s.processed)
            { s with pending := [] }).processed :=
          processBatch_mem_processed web domain _ _ b hbmem
        have hlt := pyDiff_length_lt hmono hbU hbp.2 hbin
        omega

/-! ## Lemmas about crawl_recursive -/

theorem crawl_recursive_state (web : Web) (env : DiscoveryEnv) (base : String)
    (fuel : Nat) :
    (crawl_recursive web env base fuel).2 =
      if (discover_sitemaps env base).isEmpty then initState []
      else crawlLoop web (netloc base) fuel (initState (discover_sitemaps env base)) := by
  unfold crawl_recursive
  dsimp only
  by_cases h : (discover_sitemaps env base).isEmpty = true
  · rw [if_pos h, if_pos h]
  · rw [if_neg h, if_neg h]

theorem crawl_result_pdfs (web : Web) (env : DiscoveryEnv) (base : String)
    (fuel : Nat) :
    (crawl_recursive web env base fuel).1.pdf_urls =
      (crawl_recursive web env base fuel).2.pdfs := by
  unfold crawl_recursive
  dsimp only
  split <;> rfl

theorem crawl_result_processed (web : Web) (env : DiscoveryEnv) (base : String)
    (fuel : Nat) :
    (crawl_recursive web env base fuel).1.processed_sitemaps =
      (crawl_recursive web env base fuel).2.processed := by
  unfold crawl_recursive
  dsimp only
  split <;> rfl

theorem nodup_discover (env : DiscoveryEnv) (base : String) :
    (discover_sitemaps env base).Nodup := by
  unfold discover_sitemaps
  exact nodup_pySetOf _

theorem inv0_initState (web : Web) (domain : String) (seeds : List String)
    (hn : seeds.Nodup) : Inv0 web domain (initState seeds) := by
  refine ⟨List.nodup_nil, ?_, ?_, ?_, hn, ?_, ?_⟩
  · intro u hu
    exact absurd hu (List.not_mem_nil u)
  · intro u hu
    exact absurd hu (List.not_mem_nil u)
  · exact List.Subset.refl _
  · intro u m _ hu
    exact absurd hu (List.not_mem_nil u)
  · intro u hu
    exact absurd hu (List.not_mem_nil u)

theorem crawl_state_inv0 (web : Web) (env : DiscoveryEnv) (base : String)
    (fuel : Nat) :
    Inv0 web (netloc base) ((crawl_recursive web env base fuel).2) := by
  rw [crawl_recursive_state]
  by_cases h : (discover_sitemaps env base).isEmpty
  · rw [if_pos h]
    exact inv0_initState web (netloc base) [] List.nodup_nil
  · rw [if_neg h]
    exact crawlLoop_inv0 web (netloc base) fuel _
      (inv0_initState web (netloc base) _ (nodup_discover env base))

/-! ## Claim-level theorems -/

/-- Claim C1: for every crawl run (any network, any discovery environment,
including sitemap-index graphs with self references or cycles) and every
URL, the crawler fetches that URL at most once over the whole run: the
fetch trace of crawl_recursive counts each URL at most once. -/
theorem C1_fetch_at_most_once (web : Web) (env : DiscoveryEnv) (base : String)
    (fuel : Nat) (u : String) :
    ((crawl_recursive web env base fuel).2.fetched.count u) ≤ 1 := by
  have h := (crawl_state_inv0 web env base fuel).1
  exact List.nodup_iff_count_le_one.mp h u

/-- Claim C2 counterexample: a fetched body whose XML parse fails and whose
text is a line starting with http and passing the domain filter; the claim
says the fallback adds that line as a page URL, but parse_sitemap returns
the empty result (the fallback is not attempted after an XML parse
failure). -/
theorem C2_fallback_counterexample :
    webC2 ("http://u.e/s.txt") = FetchOutcome.success bodyC2
      ∧ bodyC2.xml = none
      ∧ pyStartsWith ("http://u.e/a.pdf") ("http") = true
      ∧ is_same_domain ("u.e") ("http://u.e/a.pdf") = true
      ∧ ¬ ("http://u.e/a.pdf"
            ∈ (parse_sitemap webC2 ("u.e") ("http://u.e/s.txt") []).1.urls) := by
  decide

/-- Claim C2 amended: the plain-text fallback runs exactly when the body
parses as XML but contains neither sitemap nor url elements, adding every
stripped line that starts with http and passes the domain filter, with the
same PDF classification; when the XML parse of the body fails,
parse_sitemap returns the empty result without attempting the fallback and
without touching the error list. -/
theorem C2_fallback_amended (web : Web) (domain url : String)
    (errors : List String) :
    (∀ body doc, web url = FetchOutcome.success body → body.xml = some doc →
        doc.sitemapLocs = [] → doc.urlLocs = [] →
        (parse_sitemap web domain url errors).1.urls = fallbackUrls domain body.text
          ∧ (parse_sitemap web domain url errors).1.pdfs
              = (fallbackUrls domain body.text).filter (fun u => is_pdf_url u)
          ∧ (parse_sitemap web domain url errors).1.sitemaps = [])
      ∧ (∀ body, web url = FetchOutcome.success body → body.xml = none →
          (parse_sitemap web domain url errors).1 = emptyParse
            ∧ (parse_sitemap web domain url errors).2 = errors) := by
  constructor
  · intro body doc hw hx hs hu
    have he : (doc.sitemapLocs.isEmpty && doc.urlLocs.isEmpty) = true := by
      rw [hs, hu]
      rfl
    rw [parse_out_fallback domain errors hw hx he]
    exact ⟨rfl, rfl, rfl⟩
  · intro body hw hx
    exact ⟨parse_out_xml_fail domain errors hw hx, parse_errs_success domain errors hw⟩

/-- Claim C2 amended, witness: on a concrete body that parses as XML with
neither element type, the fallback result is returned. -/
theorem C2_fallback_amended_witness :
    (parse_sitemap webW2 ("u.e") ("http://u.e/s.txt") []).1.urls
        = fallbackUrls ("u.e") bodyW2.text
      ∧ (parse_sitemap webW2 ("u.e") ("http://u.e/s.txt") []).1.pdfs
        = (fallbackUrls ("u.e") bodyW2.text).filter (fun u => is_pdf_url u) := by
  have h := (C2_fallback_amended webW2 ("u.e") ("http://u.e/s.txt") []).1 bodyW2
    { sitemapLocs := [], urlLocs := [] } (by decide) (by decide) rfl rfl
  exact ⟨h.1, h.2.1⟩

/-- Claim C3 counterexample: a URL whose path component does not end in
.pdf but whose query string does; the code classifies it as a PDF because
the patterns are searched over the whole URL string, while the claim, which
classifies by the path component, does not. -/
theorem C3_pdf_counterexample :
    is_pdf_url ("https://u.e/p?f=a.pdf") = true
      ∧ pathPdfSpec ("https://u.e/p?f=a.pdf") = false := by
  decide

/-- Claim C3 amended: a URL is classified as a PDF iff the WHOLE URL string
(not its path component) matches one of the two patterns: it ends in .pdf
case-insensitively (the end anchor also matching just before one final
newline), or contains .pdf followed by a question mark anywhere,
case-insensitively, including inside the query string. -/
theorem C3_pdf_amended (url : String) :
    is_pdf_url url = true ↔
      (pyEndsWith (pyLower url) (".pdf") = true
        ∨ pyEndsWith (pyLower url) (".pdf\n") = true
        ∨ pyContains (pyLower url) (".pdf?") = true) := by
  unfold is_pdf_url pdf_patterns
  simp [pdfPattern1, pdfPattern2, Bool.or_eq_true, or_assoc]

/-- Claim C4 counterexample: for the target domain a.www.e (which does not
start with www.), the code accepts host a.e because str.replace removes the
inner www. occurrence, while the claim, which only strips a single leading
www., rejects it. -/
theorem C4_domain_counterexample :
    is_same_domain ("a.www.e") ("http://a.e/x") = true
      ∧ sameDomainSpec ("a.www.e") ("http://a.e/x") = false := by
  decide

/-- Claim C4 amended: the domain filter accepts a URL iff its host equals
the target domain, or www. followed by the target domain, or the target
domain with EVERY occurrence of www. removed (str.replace semantics), not
only a leading one. -/
theorem C4_domain_amended (domain url : String) :
    is_same_domain domain url = true ↔
      (netloc url = domain ∨ netloc url = "www." ++ domain
        ∨ netloc url = pyRemoveWWW domain) := by
  unfold is_same_domain
  simp [Bool.or_eq_true, beq_iff_eq, or_assoc]

/-- Claim C5 counterexample: a crawl whose robots.txt advertises an
off-domain sitemap; that URL ends up in the final processed-sitemaps set
although it fails the domain filter (robots.txt seeds are never
domain-filtered). -/
theorem C5_filter_counterexample :
    ("http://cdn.x/s.xml"
        ∈ (crawl_recursive webC5 envC5 ("http://u.e") 2).1.processed_sitemaps)
      ∧ is_same_domain (netloc ("http://u.e")) ("http://cdn.x/s.xml") = false := by
  decide

/-- Claim C5 amended: the domain filter is idempotent, and every URL of the
final PDF-URL set passes the domain filter; the final processed-sitemaps
set, however, may contain URLs outside the target domain, because robots.txt
seeds are not domain-filtered. -/
theorem C5_filter_amended :
    (∀ domain : String, ∀ l : List String,
        domainFilter domain (domainFilter domain l) = domainFilter domain l)
      ∧ (∀ web env base fuel u,
          u ∈ (crawl_recursive web env base fuel).1.pdf_urls →
          is_same_domain (netloc base) u = true) := by
  constructor
  · intro domain l
    unfold domainFilter
    rw [List.filter_filter]
    congr 1
    funext a
    exact Bool.and_self _
  · intro web env base fuel u hu
    rw [crawl_result_pdfs] at hu
    exact (crawl_state_inv0 web env base fuel).2.2.2.2.2.2 u hu

/-- Claim C5 amended, witness: a concrete crawl that finds one PDF; that
PDF passes the domain filter. -/
theorem C5_filter_amended_witness :
    ("http://u.e/d.pdf" ∈ (crawl_recursive webW5 envW5 ("http://u.e") 2).1.pdf_urls)
      ∧ is_same_domain (netloc ("http://u.e")) ("http://u.e/d.pdf") = true :=
  ⟨by decide,
   C5_filter_amended.2 webW5 envW5 ("http://u.e") 2 "http://u.e/d.pdf" (by decide)⟩

/-- Claim C6 counterexample: a crawl that fetches one sitemap whose body
fails XML parsing; the claim says the failure is recorded in the shared
error list, but the crawl ends with an empty error list (the ET.ParseError
is only logged). -/
theorem C6_errors_counterexample :
    webC6 ("http://u.e/sitemap.xml") = FetchOutcome.success bodyC6
      ∧ bodyC6.xml = none
      ∧ ("http://u.e/sitemap.xml"
          ∈ (crawl_recursive webC6 envC6 ("http://u.e") 2).2.fetched)
      ∧ (crawl_recursive webC6 envC6 ("http://u.e") 2).1.errors = [] := by
  decide

/-- Claim C6 amended: every fetch failure (timeout, connection error or
non-success HTTP status raised by raise_for_status) of a fetched URL is
caught and recorded as an entry in the shared error list, and no failure
aborts the crawl; an XML parse failure, by contrast, is caught and yields
an empty document for that URL but is only logged, not recorded. -/
theorem C6_errors_amended (web : Web) (env : DiscoveryEnv) (base : String)
    (fuel : Nat) (u m : String)
    (hf : u ∈ (crawl_recursive web env base fuel).2.fetched)
    (hw : web u = FetchOutcome.failure m) :
    reqError u m ∈ (crawl_recursive web env base fuel).2.errors :=
  (crawl_state_inv0 web env base fuel).2.2.2.2.2.1 u m hw hf

/-- Claim C6 amended, witness: a concrete crawl whose single sitemap fetch
times out; the error entry is recorded. -/
theorem C6_errors_amended_witness :
    reqError "http://u.e/sitemap.xml" "timeout"
      ∈ (crawl_recursive webW6 envW6 ("http://u.e") 2).2.errors :=
  C6_errors_amended webW6 envW6 ("http://u.e") 2 "http://u.e/sitemap.xml" "timeout"
    (by decide) (by decide)

/-- Claim C7: when discovery yields no sitemap URLs, crawl_recursive
returns immediately with empty PDF and processed sets and the single error
entry No sitemaps found. -/
theorem C7_empty_discovery (web : Web) (env : DiscoveryEnv) (base : String)
    (fuel : Nat) (h : discover_sitemaps env base = []) :
    (crawl_recursive web env base fuel).1 =
      { pdf_urls := [], sitemap_urls := [], processed_sitemaps := [],
        errors := ["No sitemaps found"] } := by
  unfold crawl_recursive
  dsimp only
  rw [h]
  rfl

/-- Claim C7 witness: a concrete environment with no robots.txt sitemap
line and all probes failing. -/
theorem C7_empty_discovery_witness :
    (crawl_recursive webW7 envW7 ("http://u.e") 5).1 =
      { pdf_urls := [], sitemap_urls := [], processed_sitemaps := [],
        errors := ["No sitemaps found"] } :=
  C7_empty_discovery webW7 envW7 ("http://u.e") 5 (by decide)

/-- Claim C8 counterexample: the pending set does NOT grow monotonically: a
concrete crawl seeds pending with one sitemap URL, and the final state of
the same run no longer contains it (the batch loop clears pending at each
drain). -/
theorem C8_monotone_counterexample :
    ("http://u.e/sitemap.xml"
        ∈ (initState (discover_sitemaps envC8 ("http://u.e"))).pending)
      ∧ ¬ ("http://u.e/sitemap.xml"
            ∈ (crawl_recursive webC8 envC8 ("http://u.e") 2).2.pending) := by
  decide

/-- Claim C8 amended: the processed-sitemaps set and the accumulated
PDF-URL set grow monotonically through the batch loop and through each
worker step (elements are only added, never removed); the pending set does
not: it is drained (cleared) at each batch boundary. -/
theorem C8_monotone_amended (web : Web) (domain : String) (fuel : Nat)
    (s : CrawlState) (url : String) :
    s.processed ⊆ (crawlLoop web domain fuel s).processed
      ∧ s.pdfs ⊆ (crawlLoop web domain fuel s).pdfs
      ∧ s.processed ⊆ (crawl_sitemap_worker web domain url s).processed
      ∧ s.pdfs ⊆ (crawl_sitemap_worker web domain url s).pdfs :=
  ⟨crawlLoop_processed_mono web domain fuel s, crawlLoop_pdfs_mono web domain fuel s,
   worker_processed_mono web domain url s, worker_pdfs_mono web domain url s⟩

/-- Claim C9: over a finite universe U of sitemap URLs that contains the
seeds and is closed under child-sitemap discovery, the batch loop
terminates within card U plus one rounds (the final state has no pending
URL at all), and the number of fetches performed is at most the number of
distinct sitemap URLs discovered (the discovered set is duplicate-free and
bounds the fetch trace). -/
theorem C9_termination_bound (web : Web) (env : DiscoveryEnv) (base : String)
    (U : List String) (fuel : Nat)
    (hseed : ∀ u ∈ discover_sitemaps env base, u ∈ U)
    (hclosed : ∀ v ∈ U, ∀ w ∈ webSitemaps web (netloc base) v, w ∈ U)
    (hfuel : U.length + 1 ≤ fuel) :
    (crawl_recursive web env base fuel).2.pending = []
      ∧ (crawl_recursive web env base fuel).2.discovered.Nodup
      ∧ (crawl_recursive web env base fuel).2.fetched.length
          ≤ (crawl_recursive web env base fuel).2.discovered.length := by
  have hinv := crawl_state_inv0 web env base fuel
  refine ⟨?_, hinv.2.2.2.2.1, ?_⟩
  · rw [crawl_recursive_state]
    by_cases h : (discover_sitemaps env base).isEmpty = true
    · rw [if_pos h]
      rfl
    · rw [if_neg h]
      apply crawlLoop_pending_empty web (netloc base) U hclosed
      · exact ⟨hseed, fun x hx => absurd hx (List.not_mem_nil x)⟩
      · show (pyDiff U []).length < fuel
        have hU : pyDiff U [] = U := by
          simp [pyDiff]
        rw [hU]
        omega
  · exact nodup_length_le hinv.1 (fun u hu => hinv.2.2.1 u hu)

/-- Claim C9 witness: a concrete two-sitemap cyclic web; with fuel three
the loop reaches the empty frontier and performs two fetches over two
distinct discovered sitemap URLs. -/
theorem C9_termination_bound_witness :
    (crawl_recursive web9 env9 ("http://u.e") 3).2.pending = []
      ∧ (crawl_recursive web9 env9 ("http://u.e") 3).2.discovered.Nodup
      ∧ (crawl_recursive web9 env9 ("http://u.e") 3).2.fetched.length
          ≤ (crawl_recursive web9 env9 ("http://u.e") 3).2.discovered.length :=
  C9_termination_bound web9 env9 ("http://u.e") U9 3 (by decide) (by decide)
    (by decide)

/-- Claim C10: save_results never raises: every failure of the file system
is caught inside its try block (the raised field is always none), the main
entry point prints the saved-to message regardless, and on an open failure
the report file is absent while on a write failure after k lines it is
partial. -/
theorem C10_save_never_raises (fault : WriteFault) (base out : String)
    (r : SitemapResult) :
    (save_results fault base out r).raised = none
      ∧ ("PDF URLs saved to: " ++ out) ∈ (main_save_and_report fault base out r).2
      ∧ (∀ m, (save_results (WriteFault.openFail m) base out r).file = none)
      ∧ (∀ k m, (save_results (WriteFault.failAfter k m) base out r).file
          = some ((reportLines base r).take k)) := by
  refine ⟨?_, ?_, ?_, ?_⟩
  · cases fault <;> rfl
  · cases fault <;> simp [main_save_and_report, save_results]
  · intro m
    rfl
  · intro k m
    rfl
